import Mathlib

/-!
Shallow embedding of the stock-charting dashboard repository
(src/app.py and src/st2.py).

Both files are Dash/Flask applications.  The embedding models:

* the startup code that loads the ticker list from `tickers.pickle` and
  builds the stock-name dropdown options (app.py lines 31-59,
  st2.py lines 35-64);
* the `graph_generator` callback of each variant (app.py lines 116-200,
  st2.py lines 136-213), including the chart-type dispatch, the pandas
  rolling/exponentially-weighted means it calls, and the live-price
  figure;
* the `toggle_modal` callback of st2.py (lines 221-228);
* the two static Flask routes of each variant.

Prices are modelled as rationals, dates as naturals.  A pandas dataframe
is a list of rows (pandas keeps the index and all columns aligned, which
the row representation captures by construction).  Python exceptions are
modelled with `Except`; `none` entries of a plotted series model NaN.
Calls into external libraries that the repository does not contain
(pandas `rolling`/`ewm`, the stockstats indicators, yahoo price fetches)
are modelled from those libraries' documented behaviour; the fetch
itself is an oracle parameter `fetch : String → DataFrame`.
-/

namespace StockDash

/-- A Python value as it may appear in the pickled ticker list (the pickle
file can hold arbitrary objects; strings and integers suffice to exhibit
the behaviours at issue). -/
inductive PyVal where
  | str (s : String)
  | int (n : Int)
deriving DecidableEq

/-- Python `str()` on such a value. -/
def pyStr : PyVal → String
  | .str s => s
  | .int n => toString n

/-- The Python exception kinds raised by the modelled code paths. -/
inductive PyError where
  | indexError
  | nameError
  | fileNotFoundError
deriving DecidableEq

/-- One row of a fetched price dataframe. -/
structure Row where
  date : Nat
  open_ : ℚ
  high : ℚ
  low : ℚ
  close : ℚ
  volume : ℚ
deriving DecidableEq

/-- A fetched price dataframe: rows indexed by date.  Column/index
alignment is by construction, as in pandas. -/
structure DataFrame where
  rows : List Row
deriving DecidableEq

def DataFrame.index (df : DataFrame) : List Nat := df.rows.map Row.date

def DataFrame.open_ (df : DataFrame) : List ℚ := df.rows.map Row.open_

def DataFrame.high (df : DataFrame) : List ℚ := df.rows.map Row.high

def DataFrame.low (df : DataFrame) : List ℚ := df.rows.map Row.low

def DataFrame.close (df : DataFrame) : List ℚ := df.rows.map Row.close

/-- pandas `df.empty`. -/
def DataFrame.empty (df : DataFrame) : Bool := df.rows.isEmpty

/-- Python negative positional indexing `s[-k]` on a price series (pandas
falls back to positional indexing for a date-indexed series given an
integer key): the k-th element from the end, IndexError when out of
range. -/
def seriesNeg (xs : List ℚ) (k : Nat) : Except PyError ℚ :=
  if 0 < k ∧ k ≤ xs.length then .ok (xs.getD (xs.length - k) 0)
  else .error .indexError

/-- Floor of a rational (via flooring integer division). -/
def ratFloor (q : ℚ) : ℤ := Int.fdiv q.num q.den

/-- Python f-string `:.2f` formatting of a (modelled-as-rational) price:
round to two decimal places and print with exactly two fraction digits.
(The exact tie-rounding mode of float formatting is immaterial here.) -/
def fmt2 (q : ℚ) : String :=
  let c : ℤ := ratFloor (q * 100 + 1 / 2)
  let sign := if c < 0 then "-" else ""
  let n := c.natAbs
  let frac := n % 100
  sign ++ toString (n / 100) ++ "." ++ (if frac < 10 then "0" else "") ++ toString frac

/-- pandas `Series.rolling(n).mean()`: entry `i` is the mean of the window
of the `n` entries ending at `i`, and NaN (`none`) while fewer than `n`
observations are available. -/
def rollingMean (n : Nat) (xs : List ℚ) : List (Option ℚ) :=
  (List.range xs.length).map fun i =>
    if i + 1 < n then none
    else some ((((xs.take (i + 1)).drop (i + 1 - n)).sum) / (n : ℚ))

/-- pandas exponentially-weighted mean with weight `w = 1 - alpha`
(`adjust=True`, the default): entry `i` is
`(sum over k ≤ i of w^k * x (i-k)) / (sum over k ≤ i of w^k)`. -/
def ewmWeighted (w : ℚ) (xs : List ℚ) : List ℚ :=
  (List.range xs.length).map fun i =>
    (((List.range (i + 1)).map fun k => w ^ k * xs.getD (i - k) 0).sum) /
      (((List.range (i + 1)).map fun k => w ^ k).sum)

/-- pandas `Series.ewm(span=s).mean()`: weight `1 - 2/(s+1)`. -/
def ewmMean (span : Nat) (xs : List ℚ) : List ℚ :=
  ewmWeighted (1 - 2 / ((span : ℚ) + 1)) xs

/-- Modelled from the external stockstats library (not part of this
repository): the MACD line, EMA(12) minus EMA(26) of the close series.
No claim depends on the numeric values of the stockstats indicators. -/
def macd (close : List ℚ) : List ℚ :=
  List.zipWith (fun a b => a - b) (ewmMean 12 close) (ewmMean 26 close)

/-- Modelled from stockstats: the MACD signal line, EMA(9) of the MACD
line. -/
def macds (close : List ℚ) : List ℚ := ewmMean 9 (macd close)

/-- Modelled from stockstats: the MACD histogram, MACD minus signal. -/
def macdh (close : List ℚ) : List ℚ :=
  List.zipWith (fun a b => a - b) (macd close) (macds close)

/-- Modelled from stockstats: the day-over-day change series (0 for the
first day). -/
def changes (close : List ℚ) : List ℚ :=
  match close with
  | [] => []
  | _ :: rest => 0 :: List.zipWith (fun a b => a - b) rest close

/-- Modelled from stockstats: RSI over `n` periods from smoothed average
gains and losses (0 where the denominator vanishes, where the library
yields NaN). -/
def rsi (n : Nat) (close : List ℚ) : List ℚ :=
  let ch := changes close
  let us := ewmWeighted (1 - 1 / (n : ℚ)) (ch.map fun c => max c 0)
  let ds := ewmWeighted (1 - 1 / (n : ℚ)) (ch.map fun c => max (-c) 0)
  List.zipWith (fun u d => 100 * u / (u + d)) us ds

/-- A plotly trace as added by `fig.add_trace` / `go.Figure(...)`. -/
inductive Trace where
  | scatter (x : List Nat) (y : List (Option ℚ)) (name : String)
  | scatterText (x : List Nat) (y : List (Option ℚ)) (text : List String) (name : String)
  | candlestick (x : List Nat) (o h l c : List ℚ) (name : String)
  | ohlc (x : List Nat) (o h l c : List ℚ)
  | indicator (value : ℚ) (reference : ℚ) (title : String)
deriving DecidableEq

/-- A callback figure output: either the bare `{}` dict the app.py variant
returns before/without data, or a built `go.Figure` with its traces,
layout height and title. -/
inductive PyFigure where
  | emptyDict
  | figure (traces : List Trace) (height : Nat) (title : String)
deriving DecidableEq

/-- The traces of a figure output (`{}` has none). -/
def PyFigure.traces : PyFigure → List Trace
  | .emptyDict => []
  | .figure ts _ _ => ts

/-- The seven chart-type values offered by the `chart` dropdown; the two
variants list the same values (app.py lines 65-73, st2.py lines 69-77). -/
def chartTypes : List String :=
  ["Line", "Candlestick", "SMA", "EMA", "MACD", "RSI", "OHLC"]

/-- Dropdown options built from the ticker list: label and value are both
`str(ticker)` (app.py line 55, st2.py lines 54-57). -/
def dropdown_options (l : List PyVal) : List (String × String) :=
  l.map fun t => (pyStr t, pyStr t)

namespace App

/-- app.py lines 31-36: `ticker_list` is unpickled from `tickers.pickle`;
on FileNotFoundError a hard-coded default list is used instead.  The
argument is the pickled content, `none` when the file is missing. -/
def ticker_list (pickled : Option (List PyVal)) : List PyVal :=
  match pickled with
  | some l => l
  | none => [.str "AAPL", .str "GOOGL", .str "MSFT", .str "AMZN", .str "TSLA"]

/-- app.py layout construction (lines 53-59): the dropdown options from
`ticker_list` and the default value `str(random.choice(ticker_list))`;
`random.choice` raises IndexError on an empty sequence.  `choiceIdx`
models the random draw. -/
def startup (pickled : Option (List PyVal)) (choiceIdx : Nat) :
    Except PyError (List (String × String) × String) :=
  let tl := ticker_list pickled
  match tl.get? (choiceIdx % tl.length) with
  | none => .error .indexError
  | some t => .ok (dropdown_options tl, pyStr t)

/-- app.py lines 152-174: the chart-type dispatch.  Each branch adds its
traces to a fresh `go.Figure`; a value matching no branch leaves the
figure traceless. -/
def chartTraces (chart_name : String) (df : DataFrame) : List Trace :=
  if chart_name = "Line" then
    [.scatter df.index (df.close.map some) "Close"]
  else if chart_name = "Candlestick" then
    [.candlestick df.index df.open_ df.high df.low df.close "Candlestick"]
  else if chart_name = "SMA" then
    [.scatter df.index (rollingMean 10 df.close) "10 Days",
     .scatter df.index (rollingMean 30 df.close) "30 Days"]
  else if chart_name = "EMA" then
    [.scatter df.index ((ewmMean 10 df.close).map some) "10 Days",
     .scatter df.index ((ewmMean 30 df.close).map some) "30 Days"]
  else if chart_name = "MACD" then
    [.scatter df.index ((macd df.close).map some) "MACD",
     .scatter df.index ((macds df.close).map some) "Signal",
     .scatter df.index ((macdh df.close).map some) "Histogram"]
  else if chart_name = "RSI" then
    [.scatter df.index ((rsi 6 df.close).map some) "RSI 6 Day",
     .scatter df.index ((rsi 12 df.close).map some) "RSI 12 Day"]
  else if chart_name = "OHLC" then
    [.ohlc df.index df.open_ df.high df.low df.close]
  else []

/-- app.py lines 116-200, the `graph_generator` callback.  `fetch` is the
`yf.download` oracle.  The second component records whether the fetch was
executed.  Output order follows the source: the chart figure first, the
live-price figure second. -/
def graph_generator (n_clicks : Nat) (ticker chart_name : String)
    (fetch : String → DataFrame) :
    Except PyError (PyFigure × PyFigure) × Bool :=
  if n_clicks = 0 then
    (.ok (.emptyDict, .emptyDict), false)
  else
    let df := fetch ticker
    if df.empty then
      (.ok (.emptyDict, .emptyDict), true)
    else
      match seriesNeg df.close 1, df.index.getLast? with
      | .ok v, some d =>
          (.ok (.figure (chartTraces chart_name df) 1000 chart_name,
                .figure [.scatterText [d] [some v] ["$" ++ fmt2 v] "Live Price"]
                  300 ("Live Price of " ++ ticker)), true)
      | .error e, _ => (.error e, true)
      | _, none => (.error .indexError, true)

end App

namespace St2

/-- st2.py lines 35-36: `ticker_list` is unpickled from `tickers.pickle`
with no exception handler, so a missing file propagates
FileNotFoundError and the process does not start. -/
def ticker_list (pickled : Option (List PyVal)) : Except PyError (List PyVal) :=
  match pickled with
  | some l => .ok l
  | none => .error .fileNotFoundError

/-- st2.py lines 59-61: the hard-coded list the default dropdown value is
drawn from (independent of `ticker_list`). -/
def defaultChoices : List String :=
  ["TSLA", "GOOGL", "F", "GE", "AAL", "DIS", "DAL", "AAPL", "MSFT", "CCL",
   "GPRO", "ACB", "PLUG", "AMZN"]

/-- st2.py layout construction (lines 35-64): options from `ticker_list`,
default value `str(random.choice(...))` over the hard-coded list, which is
never empty, so the draw never raises. -/
def startup (pickled : Option (List PyVal)) (choiceIdx : Nat) :
    Except PyError (List (String × String) × String) :=
  match ticker_list pickled with
  | .error e => .error e
  | .ok tl =>
      .ok (dropdown_options tl, defaultChoices.getD (choiceIdx % defaultChoices.length) "")

/-- st2.py line 143: `df.close = df.close * 1.1`, the in-place scaling of
the close column before any figure is built. -/
def scaleClose (df : DataFrame) : DataFrame :=
  ⟨df.rows.map fun r => { r with close := r.close * (11 / 10) }⟩

/-- st2.py lines 148-172: the chart-type dispatch (windows 10/15/30/100;
lowercase column names from yahoo_fin). -/
def chartTraces (chart_name : String) (df : DataFrame) : List Trace :=
  if chart_name = "Line" then
    [.scatter df.index (df.close.map some) "close"]
  else if chart_name = "Candlestick" then
    [.candlestick df.index df.open_ df.high df.low df.close "Candlestick"]
  else if chart_name = "SMA" then
    [.scatter df.index (rollingMean 10 df.close) "10 Days",
     .scatter df.index (rollingMean 15 df.close) "15 Days",
     .scatter df.index (rollingMean 30 df.close) "30 Days",
     .scatter df.index (rollingMean 100 df.close) "100 Days"]
  else if chart_name = "EMA" then
    [.scatter df.index ((ewmMean 10 df.close).map some) "10 Days",
     .scatter df.index ((ewmMean 15 df.close).map some) "15 Days",
     .scatter df.index ((ewmMean 30 df.close).map some) "30 Days",
     .scatter df.index ((ewmMean 100 df.close).map some) "100 Days"]
  else if chart_name = "MACD" then
    [.scatter df.index ((macd df.close).map some) "MACD",
     .scatter df.index ((macds df.close).map some) "Signal",
     .scatter df.index ((macdh df.close).map some) "Histogram"]
  else if chart_name = "RSI" then
    [.scatter df.index ((rsi 6 df.close).map some) "RSI 6 Day",
     .scatter df.index ((rsi 12 df.close).map some) "RSI 12 Day"]
  else if chart_name = "OHLC" then
    [.ohlc df.index df.open_ df.high df.low df.close]
  else []

/-- st2.py lines 136-213, the `graph_generator` callback.  When
`n_clicks < 1` the local `df` is never bound, and its first dereference
(in the chart dispatch, or in the live-price construction for a chart
value matching no branch) raises UnboundLocalError, modelled as
`nameError`.  Otherwise the fetched frame's close column is scaled in
place, the chart figure is built by the dispatch, and the live-price
indicator reads `df.close[-1]` (its value) and `df.close[-2]` (its delta
reference), in that order. -/
def graph_generator (n_clicks : Nat) (ticker chart_name : String)
    (fetch : String → DataFrame) :
    Except PyError (PyFigure × PyFigure) :=
  if 1 ≤ n_clicks then
    let df := scaleClose (fetch ticker)
    match seriesNeg df.close 1, seriesNeg df.close 2 with
    | .ok v, .ok r =>
        .ok (.figure (chartTraces chart_name df) 1000 chart_name,
             .figure [.indicator v r (ticker ++ " Live Price")] 200 "")
    | .error e, _ => .error e
    | _, .error e => .error e
  else
    .error .nameError

/-- Python truthiness of a Dash `n_clicks` value (`None` before any
click). -/
def truthy : Option Nat → Bool
  | none => false
  | some n => n != 0

/-- st2.py lines 221-228, the `toggle_modal` callback.  `get_live_price`
is the `yf.get_live_price` oracle. -/
def toggle_modal (n1 n2 : Option Nat) (is_open : Bool) (stock_name : String)
    (get_live_price : String → ℚ) : Bool × String :=
  if truthy n1 || truthy n2 then
    if !is_open then
      let live_price := get_live_price stock_name
      (true, "Do you want to buy " ++ stock_name ++ " at $" ++
        fmt2 (live_price * (11 / 10)) ++ "?")
    else (false, "")
  else (is_open, "")

end St2

/-- The process-wide mutable state shared by all handlers: the ticker
list loaded at startup (the only module-level data either variant's
handlers could observe or mutate). -/
structure Globals where
  ticker_list : List PyVal
deriving DecidableEq

/-- A request the app.py process can serve after startup: the plot
callback or one of the two static Flask routes. -/
inductive AppRequest where
  | plot (n_clicks : Nat) (ticker chart : String)
  | home
  | about

/-- A request the st2.py process can serve after startup: the plot
callback, the buy-modal callback, or one of the two static routes. -/
inductive St2Request where
  | plot (n_clicks : Nat) (ticker chart : String)
  | buy (n1 n2 : Option Nat) (is_open : Bool) (stock : String)
  | home
  | about

/-- A handler response. -/
inductive Response where
  | appFigures (r : Except PyError (PyFigure × PyFigure) × Bool)
  | st2Figures (r : Except PyError (PyFigure × PyFigure))
  | modal (r : Bool × String)
  | page (template : String)

/-- app.py request handling over the process globals: each handler is a
direct translation of the corresponding callback/route body, none of
which contains an assignment to `ticker_list`. -/
def App.handle (fetch : String → DataFrame) (g : Globals) :
    AppRequest → Globals × Response
  | .plot n t c => (g, .appFigures (App.graph_generator n t c fetch))
  | .home => (g, .page "index.html")
  | .about => (g, .page "about.html")

/-- st2.py request handling over the process globals. -/
def St2.handle (fetch : String → DataFrame) (lp : String → ℚ) (g : Globals) :
    St2Request → Globals × Response
  | .plot n t c => (g, .st2Figures (St2.graph_generator n t c fetch))
  | .buy n1 n2 o s => (g, .modal (St2.toggle_modal n1 n2 o s lp))
  | .home => (g, .page "index.html")
  | .about => (g, .page "about.html")

/-- The globals after app.py serves a sequence of requests. -/
def App.run (fetch : String → DataFrame) (g : Globals)
    (rs : List AppRequest) : Globals :=
  rs.foldl (fun g r => (App.handle fetch g r).1) g

/-- The globals after st2.py serves a sequence of requests. -/
def St2.run (fetch : String → DataFrame) (lp : String → ℚ) (g : Globals)
    (rs : List St2Request) : Globals :=
  rs.foldl (fun g r => (St2.handle fetch lp g r).1) g

/-- A sample row holding price `q` on day `d`. -/
def mkRow (d : Nat) (q : ℚ) : Row := ⟨d, q, q + 1, q - 1, q, 100⟩

/-- A sample dataframe with `n` rows. -/
def dfN (n : Nat) : DataFrame :=
  ⟨(List.range n).map fun k => mkRow k ((k : ℚ) + 1)⟩

end StockDash

namespace StockDash

/-! ### Basic facts about the embedded dataframe operations -/

theorem DataFrame.close_length (df : DataFrame) :
    df.close.length = df.rows.length := by
  simp [DataFrame.close]

theorem DataFrame.index_length (df : DataFrame) :
    df.index.length = df.rows.length := by
  simp [DataFrame.index]

theorem DataFrame.empty_eq_false (df : DataFrame) (h : df.rows ≠ []) :
    df.empty = false := by
  simp [DataFrame.empty, List.isEmpty_iff, h]

theorem seriesNeg_ok (xs : List ℚ) (k : Nat) (h1 : 0 < k) (h2 : k ≤ xs.length) :
    seriesNeg xs k = .ok (xs.getD (xs.length - k) 0) := by
  simp [seriesNeg, h1, h2]

theorem seriesNeg_err (xs : List ℚ) (k : Nat) (h : xs.length < k) :
    seriesNeg xs k = .error .indexError := by
  rw [seriesNeg, if_neg]
  omega

theorem St2.scaleClose_rows_length (df : DataFrame) :
    (St2.scaleClose df).rows.length = df.rows.length := by
  simp [St2.scaleClose]

theorem St2.scaleClose_close (df : DataFrame) :
    (St2.scaleClose df).close = df.close.map (fun q => q * (11 / 10)) := by
  simp only [St2.scaleClose, DataFrame.close, List.map_map]
  rfl

theorem St2.scaleClose_index (df : DataFrame) :
    (St2.scaleClose df).index = df.index := by
  simp only [St2.scaleClose, DataFrame.index, List.map_map]
  rfl

theorem St2.scaleClose_open (df : DataFrame) :
    (St2.scaleClose df).open_ = df.open_ := by
  simp only [St2.scaleClose, DataFrame.open_, List.map_map]
  rfl

theorem St2.scaleClose_high (df : DataFrame) :
    (St2.scaleClose df).high = df.high := by
  simp only [St2.scaleClose, DataFrame.high, List.map_map]
  rfl

theorem St2.scaleClose_low (df : DataFrame) :
    (St2.scaleClose df).low = df.low := by
  simp only [St2.scaleClose, DataFrame.low, List.map_map]
  rfl

/-- When the button has been clicked and the fetch is non-empty, app.py's
callback returns the dispatched chart figure and the live-price figure
built from the last close and last date. -/
theorem App.graph_generator_ok (n : Nat) (t c : String)
    (fetch : String → DataFrame) (hn : n ≠ 0) (hne : (fetch t).rows ≠ []) :
    ∃ d, (fetch t).index.getLast? = some d ∧
      App.graph_generator n t c fetch =
        (.ok (.figure (App.chartTraces c (fetch t)) 1000 c,
              .figure [.scatterText [d]
                  [some ((fetch t).close.getD ((fetch t).close.length - 1) 0)]
                  ["$" ++ fmt2 ((fetch t).close.getD ((fetch t).close.length - 1) 0)]
                  "Live Price"] 300 ("Live Price of " ++ t)), true) := by
  have hidx : (fetch t).index ≠ [] := by
    simp [DataFrame.index, hne]
  obtain ⟨d, hd⟩ := Option.isSome_iff_exists.mp (List.getLast?_isSome.mpr hidx)
  refine ⟨d, hd, ?_⟩
  unfold App.graph_generator
  rw [if_neg hn]
  have h1 : 1 ≤ (fetch t).close.length := by
    rw [DataFrame.close_length]
    exact List.length_pos.mpr hne
  simp only [DataFrame.empty_eq_false _ hne, Bool.false_eq_true, if_false,
    seriesNeg_ok _ 1 (by omega) h1, hd]

/-- When the button has been clicked and the fetch has at least two rows,
st2.py's callback returns the dispatched chart figure over the
close-scaled frame and the live-price indicator reading the last and
second-to-last (scaled) closes. -/
theorem St2.graph_generator_eq (n : Nat) (t c : String)
    (fetch : String → DataFrame) (hn : 1 ≤ n)
    (h2 : 2 ≤ (fetch t).rows.length) :
    St2.graph_generator n t c fetch =
      .ok (.figure (St2.chartTraces c (St2.scaleClose (fetch t))) 1000 c,
           .figure [.indicator
               ((St2.scaleClose (fetch t)).close.getD
                 ((St2.scaleClose (fetch t)).close.length - 1) 0)
               ((St2.scaleClose (fetch t)).close.getD
                 ((St2.scaleClose (fetch t)).close.length - 2) 0)
               (t ++ " Live Price")] 200 "") := by
  have hl : 2 ≤ (St2.scaleClose (fetch t)).close.length := by
    rw [DataFrame.close_length, St2.scaleClose_rows_length]
    exact h2
  unfold St2.graph_generator
  rw [if_pos hn]
  simp only [seriesNeg_ok (St2.scaleClose (fetch t)).close 1 (by omega) (by omega),
    seriesNeg_ok (St2.scaleClose (fetch t)).close 2 (by omega) hl]

/-! ### Claims -/

/-- C9: in the app.py variant, before the plot button is clicked
(`n_clicks = 0`), `graph_generator` returns two empty figures and the
data fetch is never executed (the second output component records
whether `yf.download` ran). -/
theorem app_zero_clicks_no_fetch (ticker chart : String)
    (fetch : String → DataFrame) :
    App.graph_generator 0 ticker chart fetch =
      (.ok (.emptyDict, .emptyDict), false) := rfl

/-- C10: st2.py's `graph_generator` is partial at its interface: with
`n_clicks < 1` the local `df` is never bound and the body raises
(UnboundLocalError, a NameError) when charting, and with a fetch of
fewer than two rows the live-price construction's series accesses
(`df.close[-1]` / `df.close[-2]`) raise an IndexError. -/
theorem st2_graph_generator_raises (n : Nat) (t c : String)
    (fetch : String → DataFrame) :
    (n < 1 → St2.graph_generator n t c fetch = .error .nameError) ∧
    (1 ≤ n → (fetch t).rows.length < 2 →
      St2.graph_generator n t c fetch = .error .indexError) := by
  constructor
  · intro h
    unfold St2.graph_generator
    rw [if_neg (by omega)]
  · intro hn h2
    have hl : (St2.scaleClose (fetch t)).close.length = (fetch t).rows.length := by
      rw [DataFrame.close_length, St2.scaleClose_rows_length]
    unfold St2.graph_generator
    rw [if_pos hn]
    by_cases h0 : (fetch t).rows.length = 0
    · simp only [seriesNeg_err (St2.scaleClose (fetch t)).close 1 (by omega)]
    · have h1 : (fetch t).rows.length = 1 := by omega
      simp only [seriesNeg_ok (St2.scaleClose (fetch t)).close 1 (by omega) (by omega),
        seriesNeg_err (St2.scaleClose (fetch t)).close 2 (by omega)]

/-- C10 witness: with one fetched row and a click, st2.py's callback
raises an IndexError; with `n_clicks = 0` it raises a NameError. -/
theorem st2_graph_generator_raises_witness :
    (0 < 1 ∧ 1 ≤ 1 ∧ (dfN 1).rows.length < 2) ∧
    St2.graph_generator 0 "T" "Line" (fun _ => dfN 1) = .error .nameError ∧
    St2.graph_generator 1 "T" "Line" (fun _ => dfN 1) = .error .indexError :=
  ⟨⟨by decide, by decide, by decide⟩,
   (st2_graph_generator_raises 0 "T" "Line" (fun _ => dfN 1)).1 (by decide),
   (st2_graph_generator_raises 1 "T" "Line" (fun _ => dfN 1)).2 (by decide) (by decide)⟩

/-- C1 counterexample: the claim asserts the empty-fetch guard in both
variants, but st2.py has none: with a click and an empty fetch result its
callback raises an IndexError (at the live-price series access) instead
of returning two empty figures. -/
theorem empty_fetch_st2_raises_cex :
    St2.graph_generator 1 "AAPL" "Line" (fun _ => dfN 0) =
      .error .indexError := rfl

/-- C1 (amended): only the app.py variant returns two empty figures (and
does not raise) when the data fetch yields no rows; st2.py performs no
empty-data check and raises an IndexError on an empty fetch result. -/
theorem empty_fetch_behavior (n : Nat) (ticker chart : String)
    (fetch : String → DataFrame) (hemp : (fetch ticker).rows = [])
    (hn : 1 ≤ n) :
    App.graph_generator n ticker chart fetch =
      (.ok (.emptyDict, .emptyDict), true) ∧
    St2.graph_generator n ticker chart fetch = .error .indexError := by
  constructor
  · unfold App.graph_generator
    rw [if_neg (by omega)]
    simp [DataFrame.empty, hemp]
  · unfold St2.graph_generator
    rw [if_pos hn]
    have hl : (St2.scaleClose (fetch ticker)).close.length = 0 := by
      rw [DataFrame.close_length, St2.scaleClose_rows_length, hemp]
      rfl
    simp only [seriesNeg_err (St2.scaleClose (fetch ticker)).close 1 (by omega)]

/-- C1 witness: a concrete empty fetch, exercising both conjuncts. -/
theorem empty_fetch_behavior_witness :
    (dfN 0).rows = [] ∧ 1 ≤ 1 ∧
    (App.graph_generator 1 "A" "Line" (fun _ => dfN 0) =
       (.ok (.emptyDict, .emptyDict), true) ∧
     St2.graph_generator 1 "A" "Line" (fun _ => dfN 0) = .error .indexError) :=
  ⟨rfl, by decide,
   empty_fetch_behavior 1 "A" "Line" (fun _ => dfN 0) rfl (by decide)⟩

/-- C5: in st2.py, a buy-button click (`n1 ≥ 1`) while the modal is
closed opens it with a body quoting the simulated purchase price — the
fetched live price times 1.1, formatted to two decimals — and a click
while it is open closes it with an empty body. -/
theorem toggle_modal_spec (k : Nat) (n2 : Option Nat) (stock : String)
    (f : String → ℚ) (hk : 1 ≤ k) :
    St2.toggle_modal (some k) n2 false stock f =
      (true, "Do you want to buy " ++ stock ++ " at $" ++
        fmt2 (f stock * (11 / 10)) ++ "?") ∧
    St2.toggle_modal (some k) n2 true stock f = (false, "") := by
  have ht : St2.truthy (some k) = true := by
    simp [St2.truthy]
    omega
  constructor <;> simp [St2.toggle_modal, ht]

/-- C5 witness: one concrete click on a stock quoted at 10. -/
theorem toggle_modal_spec_witness :
    1 ≤ 1 ∧
    (St2.toggle_modal (some 1) none false "AAPL" (fun _ => (10 : ℚ)) =
       (true, "Do you want to buy " ++ "AAPL" ++ " at $" ++
         fmt2 ((10 : ℚ) * (11 / 10)) ++ "?") ∧
     St2.toggle_modal (some 1) none true "AAPL" (fun _ => (10 : ℚ)) =
       (false, "")) :=
  ⟨by decide, toggle_modal_spec 1 none "AAPL" (fun _ => (10 : ℚ)) (by decide)⟩

/-- C7: the ticker list is read once at startup and no handler —
`graph_generator`, `toggle_modal`, or either static route — modifies it:
after any sequence of requests in either variant, the observed ticker
list equals the one loaded at startup. -/
theorem ticker_list_never_mutated (fetch : String → DataFrame)
    (lp : String → ℚ) (g : Globals) (rsA : List AppRequest)
    (rsS : List St2Request) :
    (App.run fetch g rsA).ticker_list = g.ticker_list ∧
    (St2.run fetch lp g rsS).ticker_list = g.ticker_list := by
  constructor
  · induction rsA generalizing g with
    | nil => rfl
    | cons r rs ih =>
        rw [App.run, List.foldl_cons]
        have hstep : (App.handle fetch g r).1 = g := by cases r <;> rfl
        rw [hstep]
        exact ih g
  · induction rsS generalizing g with
    | nil => rfl
    | cons r rs ih =>
        rw [St2.run, List.foldl_cons]
        have hstep : (St2.handle fetch lp g r).1 = g := by cases r <;> rfl
        rw [hstep]
        exact ih g

end StockDash

namespace StockDash

/-- Every chart type listed in the dropdown makes app.py's dispatch add at
least one trace. -/
theorem App.chartTraces_length_app (c : String) (df : DataFrame)
    (hc : c ∈ chartTypes) : 1 ≤ (App.chartTraces c df).length := by
  simp only [chartTypes, List.mem_cons, List.mem_singleton,
    List.not_mem_nil, or_false] at hc
  rcases hc with rfl | rfl | rfl | rfl | rfl | rfl | rfl <;>
    exact Nat.succ_le_succ (Nat.zero_le _)

/-- Every chart type listed in the dropdown makes st2.py's dispatch add at
least one trace. -/
theorem St2.chartTraces_length_st2 (c : String) (df : DataFrame)
    (hc : c ∈ chartTypes) : 1 ≤ (St2.chartTraces c df).length := by
  simp only [chartTypes, List.mem_cons, List.mem_singleton,
    List.not_mem_nil, or_false] at hc
  rcases hc with rfl | rfl | rfl | rfl | rfl | rfl | rfl <;>
    exact Nat.succ_le_succ (Nat.zero_le _)

/-- C2 counterexample: in st2.py a non-empty (one-row) fetch with a
listed chart type makes `graph_generator` raise an IndexError at the
live-price reference access, so no chart figure is returned. -/
theorem one_row_st2_raises_cex :
    St2.graph_generator 1 "AAPL" "Line" (fun _ => dfN 1) =
      .error .indexError := rfl

/-- C2 (amended): for every chart-type value in the dropdown options,
`graph_generator` given a non-empty fetched dataframe — in the st2.py
variant, one with at least two rows, since its live-price reference
access raises otherwise — returns a chart figure containing at least one
trace. -/
theorem chart_types_yield_traces (c : String) (n : Nat) (ticker : String)
    (fetch fetch2 : String → DataFrame) (hc : c ∈ chartTypes) (hn : 1 ≤ n)
    (h1 : (fetch ticker).rows ≠ []) (h2 : 2 ≤ (fetch2 ticker).rows.length) :
    (∃ fig live, (App.graph_generator n ticker c fetch).1 = .ok (fig, live) ∧
      1 ≤ fig.traces.length) ∧
    (∃ fig live, St2.graph_generator n ticker c fetch2 = .ok (fig, live) ∧
      1 ≤ fig.traces.length) := by
  constructor
  · obtain ⟨d, _, happ⟩ :=
      App.graph_generator_ok n ticker c fetch (by omega) h1
    refine ⟨.figure (App.chartTraces c (fetch ticker)) 1000 c,
      .figure [.scatterText [d]
          [some ((fetch ticker).close.getD ((fetch ticker).close.length - 1) 0)]
          ["$" ++ fmt2 ((fetch ticker).close.getD ((fetch ticker).close.length - 1) 0)]
          "Live Price"] 300 ("Live Price of " ++ ticker),
      ?_, App.chartTraces_length_app c (fetch ticker) hc⟩
    rw [happ]
  · rw [St2.graph_generator_eq n ticker c fetch2 hn h2]
    refine ⟨.figure (St2.chartTraces c (St2.scaleClose (fetch2 ticker))) 1000 c,
      .figure [.indicator
          ((St2.scaleClose (fetch2 ticker)).close.getD
            ((St2.scaleClose (fetch2 ticker)).close.length - 1) 0)
          ((St2.scaleClose (fetch2 ticker)).close.getD
            ((St2.scaleClose (fetch2 ticker)).close.length - 2) 0)
          (ticker ++ " Live Price")] 200 "",
      rfl, St2.chartTraces_length_st2 c _ hc⟩

/-- C2 witness: the Line chart over concrete one- and two-row fetches. -/
theorem chart_types_yield_traces_witness :
    ("Line" ∈ chartTypes ∧ 1 ≤ 1 ∧ (dfN 1).rows ≠ [] ∧
      2 ≤ (dfN 2).rows.length) ∧
    ((∃ fig live, (App.graph_generator 1 "T" "Line" (fun _ => dfN 1)).1 =
        .ok (fig, live) ∧ 1 ≤ fig.traces.length) ∧
     (∃ fig live, St2.graph_generator 1 "T" "Line" (fun _ => dfN 2) =
        .ok (fig, live) ∧ 1 ≤ fig.traces.length)) :=
  ⟨⟨by decide, by decide, by decide, by decide⟩,
   chart_types_yield_traces "Line" 1 "T" (fun _ => dfN 1) (fun _ => dfN 2)
     (by decide) (by decide) (by decide) (by decide)⟩

/-- C3: the SMA and EMA branches of both variants plot moving averages of
the dataframe's close column and of no other column, with windows/spans
10 and 30 in app.py and 10, 15, 30 and 100 in st2.py; each rolling entry
with a full window is the arithmetic mean of the `n` closes ending at
that position (`none` models the NaN produced while the window is not
yet full). -/
theorem sma_ema_close_windows (df : DataFrame) :
    App.chartTraces "SMA" df =
      [.scatter df.index (rollingMean 10 df.close) "10 Days",
       .scatter df.index (rollingMean 30 df.close) "30 Days"] ∧
    App.chartTraces "EMA" df =
      [.scatter df.index ((ewmMean 10 df.close).map some) "10 Days",
       .scatter df.index ((ewmMean 30 df.close).map some) "30 Days"] ∧
    St2.chartTraces "SMA" df =
      [.scatter df.index (rollingMean 10 df.close) "10 Days",
       .scatter df.index (rollingMean 15 df.close) "15 Days",
       .scatter df.index (rollingMean 30 df.close) "30 Days",
       .scatter df.index (rollingMean 100 df.close) "100 Days"] ∧
    St2.chartTraces "EMA" df =
      [.scatter df.index ((ewmMean 10 df.close).map some) "10 Days",
       .scatter df.index ((ewmMean 15 df.close).map some) "15 Days",
       .scatter df.index ((ewmMean 30 df.close).map some) "30 Days",
       .scatter df.index ((ewmMean 100 df.close).map some) "100 Days"] ∧
    (∀ n i, n ≤ i + 1 → i < df.close.length →
      ((df.close.take (i + 1)).drop (i + 1 - n)).length = n ∧
      (rollingMean n df.close).get? i =
        some (some ((((df.close.take (i + 1)).drop (i + 1 - n)).sum) /
          (n : ℚ)))) := by
  refine ⟨rfl, rfl, rfl, rfl, fun n i h1 h2 => ⟨?_, ?_⟩⟩
  · simp only [List.length_drop, List.length_take]
    omega
  · rw [rollingMean, List.get?_map, List.get?_range h2]
    simp [Nat.not_lt.2 h1]

/-- C3 witness: window 10 at position 9 over a twelve-row frame. -/
theorem sma_ema_close_windows_witness :
    (10 ≤ 9 + 1 ∧ 9 < (dfN 12).close.length) ∧
    ((((dfN 12).close.take (9 + 1)).drop (9 + 1 - 10)).length = 10 ∧
     (rollingMean 10 (dfN 12).close).get? 9 =
       some (some ((((dfN 12).close.take (9 + 1)).drop (9 + 1 - 10)).sum /
         (10 : ℚ)))) :=
  ⟨⟨by decide, by decide⟩,
   (sma_ema_close_windows (dfN 12)).2.2.2.2 10 9 (by decide) (by decide)⟩

/-- C6: the chart-update logic is a bare conditional dispatch on the
selected chart type — for a dataframe in scope each listed value runs
exactly its branch, a value matching no branch silently yields a
traceless figure, and no branch checks for or raises errors: the chart
figure is always built, whatever the chart type and dataframe. -/
theorem chart_dispatch_structure (c : String) (df : DataFrame) (n : Nat)
    (ticker : String) (fetch : String → DataFrame) :
    (c ∉ chartTypes → App.chartTraces c df = [] ∧ St2.chartTraces c df = []) ∧
    (1 ≤ n → (fetch ticker).rows ≠ [] →
      ∃ live, (App.graph_generator n ticker c fetch).1 =
        .ok (.figure (App.chartTraces c (fetch ticker)) 1000 c, live)) ∧
    (1 ≤ n → 2 ≤ (fetch ticker).rows.length →
      ∃ live, St2.graph_generator n ticker c fetch =
        .ok (.figure (St2.chartTraces c (St2.scaleClose (fetch ticker)))
          1000 c, live)) := by
  refine ⟨fun hc => ?_, fun hn h1 => ?_, fun hn h2 => ?_⟩
  · simp only [chartTypes, List.mem_cons, List.mem_singleton,
      List.not_mem_nil, or_false, not_or] at hc
    obtain ⟨e1, e2, e3, e4, e5, e6, e7⟩ := hc
    constructor
    · simp [App.chartTraces, e1, e2, e3, e4, e5, e6, e7]
    · simp [St2.chartTraces, e1, e2, e3, e4, e5, e6, e7]
  · obtain ⟨d, _, happ⟩ :=
      App.graph_generator_ok n ticker c fetch (by omega) h1
    exact ⟨_, by rw [happ]⟩
  · rw [St2.graph_generator_eq n ticker c fetch hn h2]
    exact ⟨_, rfl⟩

/-- C6 witness: an unlisted chart value over a concrete two-row fetch. -/
theorem chart_dispatch_structure_witness :
    ("Pie" ∉ chartTypes ∧ 1 ≤ 1 ∧ (dfN 2).rows ≠ [] ∧
      2 ≤ (dfN 2).rows.length) ∧
    (App.chartTraces "Pie" (dfN 2) = [] ∧ St2.chartTraces "Pie" (dfN 2) = []) ∧
    (∃ live, (App.graph_generator 1 "T" "Pie" (fun _ => dfN 2)).1 =
      .ok (.figure (App.chartTraces "Pie" (dfN 2)) 1000 "Pie", live)) ∧
    (∃ live, St2.graph_generator 1 "T" "Pie" (fun _ => dfN 2) =
      .ok (.figure (St2.chartTraces "Pie" (St2.scaleClose (dfN 2)))
        1000 "Pie", live)) :=
  have h := chart_dispatch_structure "Pie" (dfN 2) 1 "T" (fun _ => dfN 2)
  ⟨⟨by decide, by decide, by decide, by decide⟩, h.1 (by decide),
   h.2.1 (by decide) (by decide), h.2.2 (by decide) (by decide)⟩

end StockDash

namespace StockDash

/-- C8: in st2.py the fetched frame's close column is scaled by 1.1 in
place before any figure is built, so every close price the user sees —
the line chart, the candlestick close series, the SMA/EMA inputs, and
the live-price value and its delta reference — is 1.1 times the close
returned by the data provider. -/
theorem st2_close_scaled (fetch : String → DataFrame) (t c : String)
    (n : Nat) (hn : 1 ≤ n) (h2 : 2 ≤ (fetch t).rows.length) :
    (St2.scaleClose (fetch t)).close =
      (fetch t).close.map (fun q => q * (11 / 10)) ∧
    St2.chartTraces "Line" (St2.scaleClose (fetch t)) =
      [.scatter (fetch t).index
        (((fetch t).close.map (fun q => q * (11 / 10))).map some) "close"] ∧
    St2.chartTraces "Candlestick" (St2.scaleClose (fetch t)) =
      [.candlestick (fetch t).index (fetch t).open_ (fetch t).high
        (fetch t).low ((fetch t).close.map (fun q => q * (11 / 10)))
        "Candlestick"] ∧
    St2.chartTraces "SMA" (St2.scaleClose (fetch t)) =
      [.scatter (fetch t).index
        (rollingMean 10 ((fetch t).close.map (fun q => q * (11 / 10)))) "10 Days",
       .scatter (fetch t).index
        (rollingMean 15 ((fetch t).close.map (fun q => q * (11 / 10)))) "15 Days",
       .scatter (fetch t).index
        (rollingMean 30 ((fetch t).close.map (fun q => q * (11 / 10)))) "30 Days",
       .scatter (fetch t).index
        (rollingMean 100 ((fetch t).close.map (fun q => q * (11 / 10)))) "100 Days"] ∧
    St2.chartTraces "EMA" (St2.scaleClose (fetch t)) =
      [.scatter (fetch t).index
        (((ewmMean 10 ((fetch t).close.map (fun q => q * (11 / 10))))).map some) "10 Days",
       .scatter (fetch t).index
        (((ewmMean 15 ((fetch t).close.map (fun q => q * (11 / 10))))).map some) "15 Days",
       .scatter (fetch t).index
        (((ewmMean 30 ((fetch t).close.map (fun q => q * (11 / 10))))).map some) "30 Days",
       .scatter (fetch t).index
        (((ewmMean 100 ((fetch t).close.map (fun q => q * (11 / 10))))).map some) "100 Days"] ∧
    St2.graph_generator n t c fetch =
      .ok (.figure (St2.chartTraces c (St2.scaleClose (fetch t))) 1000 c,
           .figure [.indicator
               (((fetch t).close.map (fun q => q * (11 / 10))).getD
                 (((fetch t).close.map (fun q => q * (11 / 10))).length - 1) 0)
               (((fetch t).close.map (fun q => q * (11 / 10))).getD
                 (((fetch t).close.map (fun q => q * (11 / 10))).length - 2) 0)
               (t ++ " Live Price")] 200 "") := by
  have hline : St2.chartTraces "Line" (St2.scaleClose (fetch t)) =
      [.scatter (St2.scaleClose (fetch t)).index
        ((St2.scaleClose (fetch t)).close.map some) "close"] := rfl
  have hcandle : St2.chartTraces "Candlestick" (St2.scaleClose (fetch t)) =
      [.candlestick (St2.scaleClose (fetch t)).index
        (St2.scaleClose (fetch t)).open_ (St2.scaleClose (fetch t)).high
        (St2.scaleClose (fetch t)).low (St2.scaleClose (fetch t)).close
        "Candlestick"] := rfl
  have hsma : St2.chartTraces "SMA" (St2.scaleClose (fetch t)) =
      [.scatter (St2.scaleClose (fetch t)).index
        (rollingMean 10 (St2.scaleClose (fetch t)).close) "10 Days",
       .scatter (St2.scaleClose (fetch t)).index
        (rollingMean 15 (St2.scaleClose (fetch t)).close) "15 Days",
       .scatter (St2.scaleClose (fetch t)).index
        (rollingMean 30 (St2.scaleClose (fetch t)).close) "30 Days",
       .scatter (St2.scaleClose (fetch t)).index
        (rollingMean 100 (St2.scaleClose (fetch t)).close) "100 Days"] := rfl
  have hema : St2.chartTraces "EMA" (St2.scaleClose (fetch t)) =
      [.scatter (St2.scaleClose (fetch t)).index
        ((ewmMean 10 (St2.scaleClose (fetch t)).close).map some) "10 Days",
       .scatter (St2.scaleClose (fetch t)).index
        ((ewmMean 15 (St2.scaleClose (fetch t)).close).map some) "15 Days",
       .scatter (St2.scaleClose (fetch t)).index
        ((ewmMean 30 (St2.scaleClose (fetch t)).close).map some) "30 Days",
       .scatter (St2.scaleClose (fetch t)).index
        ((ewmMean 100 (St2.scaleClose (fetch t)).close).map some) "100 Days"] := rfl
  refine ⟨St2.scaleClose_close (fetch t), ?_, ?_, ?_, ?_, ?_⟩
  · rw [hline, St2.scaleClose_close, St2.scaleClose_index]
  · rw [hcandle, St2.scaleClose_close, St2.scaleClose_index,
      St2.scaleClose_open, St2.scaleClose_high, St2.scaleClose_low]
  · rw [hsma, St2.scaleClose_close, St2.scaleClose_index]
  · rw [hema, St2.scaleClose_close, St2.scaleClose_index]
  · rw [St2.graph_generator_eq n t c fetch hn h2, St2.scaleClose_close]

/-- C8 witness: a concrete two-row fetch through the st2.py callback. -/
theorem st2_close_scaled_witness :
    (1 ≤ 1 ∧ 2 ≤ (dfN 2).rows.length) ∧
    ((St2.scaleClose (dfN 2)).close =
      (dfN 2).close.map (fun q => q * (11 / 10)) ∧
     St2.chartTraces "Line" (St2.scaleClose (dfN 2)) =
      [.scatter (dfN 2).index
        (((dfN 2).close.map (fun q => q * (11 / 10))).map some) "close"] ∧
     St2.graph_generator 1 "T" "Line" (fun _ => dfN 2) =
      .ok (.figure (St2.chartTraces "Line" (St2.scaleClose (dfN 2))) 1000 "Line",
           .figure [.indicator
               (((dfN 2).close.map (fun q => q * (11 / 10))).getD
                 (((dfN 2).close.map (fun q => q * (11 / 10))).length - 1) 0)
               (((dfN 2).close.map (fun q => q * (11 / 10))).getD
                 (((dfN 2).close.map (fun q => q * (11 / 10))).length - 2) 0)
               ("T" ++ " Live Price")] 200 "")) :=
  have h := st2_close_scaled (fun _ => dfN 2) "T" "Line" 1 (by decide) (by decide)
  ⟨⟨by decide, by decide⟩, h.1, h.2.1, h.2.2.2.2.2⟩

/-- C4 counterexample: the claim requires a non-empty all-string ticker
list at every process start, but st2.py starts successfully from a
pickle holding the empty list: the loaded ticker list is empty and the
dropdown gets no options. -/
theorem st2_startup_empty_list_cex :
    St2.startup (some []) 0 = .ok ([], "TSLA") ∧
    St2.ticker_list (some []) = .ok [] := ⟨rfl, rfl⟩

/-- C4 (amended): the ticker list is loaded from tickers.pickle when the
file is present (app.py substitutes a hard-coded default list when it is
missing, st2.py fails to start); the dropdown options are built from
exactly the loaded entries via `str`; the code does not guarantee the
list is non-empty or all-string — st2.py starts with an empty list,
while app.py's `random.choice` default makes its start raise IndexError
on an empty list and succeed on any non-empty one. -/
theorem ticker_list_startup (l : List PyVal) (i : Nat) :
    App.ticker_list (some l) = l ∧
    App.ticker_list none =
      [.str "AAPL", .str "GOOGL", .str "MSFT", .str "AMZN", .str "TSLA"] ∧
    St2.ticker_list (some l) = .ok l ∧
    St2.ticker_list none = .error .fileNotFoundError ∧
    dropdown_options l = l.map (fun v => (pyStr v, pyStr v)) ∧
    (∃ v, St2.startup (some l) i = .ok (dropdown_options l, v)) ∧
    (l = [] → App.startup (some l) i = .error .indexError) ∧
    (l ≠ [] → ∃ v, App.startup (some l) i = .ok (dropdown_options l, v)) := by
  refine ⟨rfl, rfl, rfl, rfl, rfl, ⟨_, rfl⟩, ?_, ?_⟩
  · rintro rfl
    rfl
  · intro h
    have hlt : i % l.length < l.length :=
      Nat.mod_lt _ (List.length_pos.mpr h)
    have hs : App.startup (some l) i =
        match l.get? (i % l.length) with
        | none => .error .indexError
        | some v => .ok (dropdown_options l, pyStr v) := rfl
    refine ⟨pyStr (l.get ⟨i % l.length, hlt⟩), ?_⟩
    rw [hs, List.get?_eq_get hlt]

/-- C4 witness: a singleton string list and the empty list through
app.py's startup. -/
theorem ticker_list_startup_witness :
    ([PyVal.str "A"] ≠ [] ∧ ([] : List PyVal) = []) ∧
    ((∃ v, App.startup (some [PyVal.str "A"]) 0 =
        .ok (dropdown_options [PyVal.str "A"], v)) ∧
     App.startup (some ([] : List PyVal)) 0 = .error .indexError) :=
  ⟨⟨by decide, rfl⟩,
   (ticker_list_startup [PyVal.str "A"] 0).2.2.2.2.2.2.2 (by decide),
   (ticker_list_startup ([] : List PyVal) 0).2.2.2.2.2.2.1 rfl⟩

end StockDash
